import Mathlib

/-!
Verification of the LifeRhythm dashboard (`src/app.py`).

The development shallowly embeds the three pure cores of the program:

* `ask_ai_for_score_and_advice` — the Remote Judge Client's response
  handling (regex score extraction, replace-all, strip, and the failure
  branches), modelled over an explicit `HttpOutcome` of the GET call;
* `create_bar_chart` — the bar chart's bars and their value annotations;
* `create_timeline_art` — the horizontal strip's segment geometry,
  with Python float arithmetic modelled exactly over `ℚ`;
* the Streamlit session state (`ai_score` / `ai_advice`) as an explicit
  state machine over events.

Python strings are modelled as `List Char`.  The character classes of the
regex and of `str.strip` follow CPython's Unicode classification exactly:
the whitespace class and the default strip set are one and the same
`str.isspace` set, and the regex digit class on `str` is exactly the
Unicode decimal-digit category Nd (both sets generated from CPython
3.11's Unicode database).
-/

/-- The code points CPython classifies as whitespace (`str.isspace`):
the regex whitespace class on `str` and `str.strip()`'s default strip
set both use exactly this classification. -/
def pySpaceCodes : List Nat :=
  [9, 10, 11, 12, 13, 28, 29, 30, 31, 32, 133, 160, 5760, 8192, 8193,
   8194, 8195, 8196, 8197, 8198, 8199, 8200, 8201, 8202, 8232, 8233,
   8239, 8287, 12288]

/-- Python whitespace: the embedding of the regex whitespace class and
of `str.strip`'s default strip set. -/
def isSpacePy (c : Char) : Bool := pySpaceCodes.contains c.toNat

/-- The first code points of the Unicode decimal-digit (category Nd)
blocks: every Nd character sits in a run of ten consecutive code points
whose decimal values are 0–9 in order. -/
def pyDigitBases : List Nat :=
  [48, 1632, 1776, 1984, 2406, 2534, 2662, 2790, 2918, 3046, 3174, 3302,
   3430, 3558, 3664, 3792, 3872, 4160, 4240, 6112, 6160, 6470, 6608,
   6784, 6800, 6992, 7088, 7232, 7248, 42528, 43216, 43264, 43472,
   43504, 43600, 44016, 65296, 66720, 68912, 69734, 69872, 69942, 70096,
   70384, 70736, 70864, 71248, 71360, 71472, 71904, 72016, 72784, 73040,
   73120, 92768, 92864, 93008, 120782, 120792, 120802, 120812, 120822,
   123200, 123632, 125264, 130032]

/-- Python digit: the embedding of the regex digit class on `str`, which
matches exactly the Unicode decimal digits (category Nd). -/
def isDigitPy (c : Char) : Bool :=
  pyDigitBases.any (fun b => decide (b ≤ c.toNat ∧ c.toNat < b + 10))

/-- A decimal digit's value: its offset in its block of ten (0 for a
non-digit, never reached on the runs `int` is applied to here). -/
def digitValPy (c : Char) : Nat :=
  match pyDigitBases.find? (fun b => decide (b ≤ c.toNat ∧ c.toNat < b + 10)) with
  | some b => c.toNat - b
  | none => 0

/-- The literal `"SCORE:"` that the regex of `app.py` line 57 anchors on. -/
def scoreTag : List Char := "SCORE:".data

/-- One anchored attempt, at the head of `cs`, of the regex
`SCORE:` – whitespace-star – digits-plus (app.py line 57): on success
returns (group 0, group 1), i.e. the full matched text and the digit run.
Greedy whitespace followed by at least one digit needs no backtracking,
because a whitespace character is never a digit. -/
def scoreMatch (cs : List Char) : Option (List Char × List Char) :=
  if cs.take 6 = scoreTag then
    let rest := cs.drop 6
    let ws := rest.takeWhile isSpacePy
    let ds := (rest.drop ws.length).takeWhile isDigitPy
    if ds.isEmpty then none else some (scoreTag ++ ws ++ ds, ds)
  else none

/-- The embedding of `re.search`: try the pattern at every position from
the left, returning the leftmost match. -/
def reSearchScore : List Char → Option (List Char × List Char)
  | [] => none
  | c :: t =>
    match scoreMatch (c :: t) with
    | some r => some r
    | none => reSearchScore t

/-- `int` applied to a run of decimal digits: each digit contributes its
Unicode decimal value. -/
def digitsVal (ds : List Char) : Nat :=
  ds.foldl (fun a c => 10 * a + digitValPy c) 0

/-- The scan of `removeAll`, with explicit fuel so that the recursion is
structural (every step either consumes the matched occurrence, which for a
nonempty pattern shortens the list, or one character, so fuel equal to the
list's length is always enough and the `0` arm is never reached). -/
def removeAllAux (pat : List Char) : Nat → List Char → List Char
  | _, [] => []
  | 0, cs => cs
  | fuel + 1, c :: t =>
    if pat ≠ [] ∧ (c :: t).take pat.length = pat then
      removeAllAux pat fuel ((c :: t).drop pat.length)
    else
      c :: removeAllAux pat fuel t

/-- The embedding of `str.replace(pat, "")` for nonempty `pat`: a single
left-to-right scan removing every non-overlapping occurrence. -/
def removeAll (pat cs : List Char) : List Char :=
  removeAllAux pat cs.length cs

/-- The embedding of `str.strip()` with no arguments: leading and
trailing Python whitespace removed. -/
def stripPy (cs : List Char) : List Char :=
  ((cs.dropWhile isSpacePy).reverse.dropWhile isSpacePy).reverse

/-- The literal head of the malformed-response advice of app.py line 66. -/
def fmtMissingMsg : List Char := "AI 형식이 올바르지 않습니다. 내용: ".data

/-- The fixed connection-error advice of app.py line 68. -/
def connErrMsg : List Char := "AI 서버 연결 오류입니다.".data

/-- The literal head of the exception advice of app.py line 70. -/
def errMsgHead : List Char := "Error: ".data

/-- The outcome of the `requests.get` call, as seen by the code that
follows it: a response with a status code and a body, or a raised
exception with its description (`str(e)`). -/
inductive HttpOutcome where
  | success (status : Nat) (body : List Char)
  | exn (desc : List Char)

/-- The response handling of `ask_ai_for_score_and_advice`
(app.py lines 51–70), as a function of the outcome of the GET:
on a 200 response search the body for the score pattern; on a match
return the digits' value and the body with every occurrence of the
matched text removed and stripped; otherwise the diagnostic fallback;
on a non-200 status the fixed connection-error pair; on an exception
the `"Error: "` pair.  The score is a Python `int`, modelled as `ℤ`. -/
def ask_ai_for_score_and_advice : HttpOutcome → Int × List Char
  | .success status body =>
    if status = 200 then
      match reSearchScore body with
      | some (g0, ds) => ((digitsVal ds : Int), stripPy (removeAll g0 body))
      | none => (0, fmtMissingMsg ++ body)
    else
      (0, connErrMsg)
  | .exn e => (0, errMsgHead ++ e)

/-- The `COLORS` table of app.py lines 13–16. -/
def COLORS : List (String × String) :=
  [("Sleep", "#2C3E50"), ("Study", "#E67E22"), ("Screen", "#E74C3C"),
   ("Exercise", "#27AE60"), ("Social", "#F1C40F"), ("Others", "#95A5A6")]

/-- `COLORS.get(cat, "#95A5A6")`. -/
def colorGet (cat : String) : String := (COLORS.lookup cat).getD "#95A5A6"

/-- The five fixed categories, in the dict's insertion order
(app.py line 167). -/
def categories : List String := ["Sleep", "Study", "Screen", "Exercise", "Social"]

/-- The `input_data` dict: five hour values keyed by the fixed categories.
Hours are Python floats, modelled exactly over `ℚ`. -/
structure RoutineInput where
  sleep : ℚ
  study : ℚ
  screen : ℚ
  exercise : ℚ
  social : ℚ

/-- `data.items()` in the dict's fixed insertion order. -/
def items (r : RoutineInput) : List (String × ℚ) :=
  [("Sleep", r.sleep), ("Study", r.study), ("Screen", r.screen),
   ("Exercise", r.exercise), ("Social", r.social)]

/-- One bar of the chart produced by `create_bar_chart`
(app.py line 91): its category, its height (`hours`) and its color. -/
structure Bar where
  cat : String
  height : ℚ
  color : String

/-- The bars of `create_bar_chart` (app.py lines 76–91): one bar per
category, height equal to the supplied hours, color from the table. -/
def create_bar_chart (r : RoutineInput) : List Bar :=
  (items r).map (fun p => { cat := p.1, height := p.2, color := colorGet p.1 })

/-- The annotation loop of app.py lines 103–107: the numeric label above a
bar is drawn exactly when the bar's height is positive.  The `f"{height}h"`
text is abstracted to the numeric value it displays. -/
def barLabel (b : Bar) : Option ℚ :=
  if 0 < b.height then some b.height else none

/-- The strip's fixed pixel width (app.py line 114). -/
def timelineWidth : ℚ := 1200

/-- `sum(data.values())` (app.py line 119). -/
def totalInput (r : RoutineInput) : ℚ :=
  ((items r).map Prod.snd).sum

/-- `base_hours = max(24, total_input)` (app.py line 120). -/
def baseHours (r : RoutineInput) : ℚ := max 24 (totalInput r)

/-- One rectangle of the strip: its x-extent and fill color (the y-extent
is always the full height and is not modelled). -/
structure Seg where
  x0 : ℚ
  x1 : ℚ
  color : String

/-- The drawing loop of app.py lines 125–130: walk the categories in
order, keeping `current_x`; a category with positive hours contributes a
rectangle of width `hours * pixels_per_hour` and advances `current_x`. -/
def drawSegs (pph : ℚ) : ℚ → List (String × ℚ) → List Seg
  | _, [] => []
  | x, (c, h) :: t =>
    if 0 < h then
      { x0 := x, x1 := x + h * pph, color := colorGet c } :: drawSegs pph (x + h * pph) t
    else
      drawSegs pph x t

/-- The value of `current_x` when the loop of app.py lines 125–130 ends. -/
def finalX (pph : ℚ) : ℚ → List (String × ℚ) → ℚ
  | x, [] => x
  | x, (_, h) :: t =>
    if 0 < h then finalX pph (x + h * pph) t else finalX pph x t

/-- The strip geometry of `create_timeline_art` (app.py lines 112–135):
the category rectangles in order, followed by the `COLORS["Others"]`
filler rectangle when `current_x < width` at the end of the loop. -/
def create_timeline_art (r : RoutineInput) : List Seg :=
  if finalX (timelineWidth / baseHours r) 0 (items r) < timelineWidth then
    drawSegs (timelineWidth / baseHours r) 0 (items r)
      ++ [{ x0 := finalX (timelineWidth / baseHours r) 0 (items r),
            x1 := timelineWidth, color := colorGet "Others" }]
  else
    drawSegs (timelineWidth / baseHours r) 0 (items r)

/-- `x` to `y` chained coverage: the rectangles start at `x`, each one
starts where the previous one ends, and the last one ends at `y`. -/
def SegChain (x : ℚ) : List Seg → ℚ → Prop
  | [], y => x = y
  | s :: t, y => s.x0 = x ∧ SegChain s.x1 t y

/-- The Streamlit session state of app.py lines 144–147: the current
slider values together with the stored `ai_score` / `ai_advice` pair,
both `None` until the first evaluation. -/
structure ShellState where
  input : RoutineInput
  ai_score : Option Int
  ai_advice : Option (List Char)

/-- Session start: no stored result (app.py lines 144–147). -/
def initShell (r0 : RoutineInput) : ShellState :=
  { input := r0, ai_score := none, ai_advice := none }

/-- The interactions of one session: pressing the evaluate button (whose
remote call has some outcome), or moving the sliders. -/
inductive Event where
  | evaluate (out : HttpOutcome)
  | setInput (r : RoutineInput)

/-- One interaction step: the evaluate button stores the returned pair
unconditionally (app.py lines 187–194); a slider change only replaces the
input and leaves the stored result alone. -/
def step : ShellState → Event → ShellState
  | s, .evaluate out =>
    { s with ai_score := some (ask_ai_for_score_and_advice out).1,
             ai_advice := some (ask_ai_for_score_and_advice out).2 }
  | s, .setInput r => { s with input := r }

/-- A whole session: the steps applied in order from the initial state. -/
def run (s : ShellState) (evs : List Event) : ShellState :=
  evs.foldl step s

/-- The displayed result (app.py lines 197–210): when `ai_score` is not
`None` the stored score and advice are shown, otherwise the neutral
prompt (modelled as `none`). -/
def displayed (s : ShellState) : Option (Int × List Char) :=
  match s.ai_score with
  | some sc => some (sc, s.ai_advice.getD [])
  | none => none

/-- The outcome of the last evaluate interaction of a session, if any. -/
def lastEval : List Event → Option HttpOutcome
  | [] => none
  | e :: t =>
    match lastEval t with
    | some o => some o
    | none =>
      match e with
      | .evaluate o => some o
      | .setInput _ => none

/-- A concrete input (the sliders' default values) used to instantiate
the universally quantified statements. -/
def sampleInput : RoutineInput := ⟨7, 6, 3, 1, 2⟩

/-! ### Lemmas about the score search -/

/-- When the pattern matches at no position at all, the search fails. -/
theorem reSearch_none (body : List Char)
    (h : ∀ i, i < body.length → scoreMatch (body.drop i) = none) :
    reSearchScore body = none := by
  induction body with
  | nil => rfl
  | cons c t ih =>
    have h0 : scoreMatch (c :: t) = none := by
      have := h 0 (by simp)
      rwa [List.drop_zero] at this
    simp only [reSearchScore, h0]
    refine ih ?_
    intro i hi
    have := h (i + 1) (by simpa using Nat.succ_lt_succ hi)
    rwa [List.drop_succ_cons] at this

/-- The color and width of each drawn rectangle: the positive-hours
categories in order, each of width `hours * pixels_per_hour`. -/
theorem drawSegs_widths (pph : ℚ) :
    ∀ (l : List (String × ℚ)) (x : ℚ),
      (drawSegs pph x l).map (fun s => (s.color, s.x1 - s.x0))
        = (l.filter (fun p => decide (0 < p.2))).map
            (fun p => (colorGet p.1, p.2 * pph)) := by
  intro l
  induction l with
  | nil => intro x; rfl
  | cons p t ih =>
    intro x
    obtain ⟨c, h⟩ := p
    by_cases hp : 0 < h
    · simp [drawSegs, hp, List.filter_cons, ih]
    · simp [drawSegs, hp, List.filter_cons, ih]

/-- The drawn rectangles chain from the starting `current_x` to its final
value. -/
theorem drawSegs_chain (pph : ℚ) :
    ∀ (l : List (String × ℚ)) (x : ℚ),
      SegChain x (drawSegs pph x l) (finalX pph x l) := by
  intro l
  induction l with
  | nil => intro x; rfl
  | cons p t ih =>
    intro x
    obtain ⟨c, h⟩ := p
    by_cases hp : 0 < h
    · simpa [drawSegs, finalX, hp, SegChain] using ih (x + h * pph)
    · simpa [drawSegs, finalX, hp] using ih x

theorem SegChain_append {y z : ℚ} {l l' : List Seg} :
    ∀ {x : ℚ}, SegChain x l y → SegChain y l' z → SegChain x (l ++ l') z := by
  induction l with
  | nil =>
    intro x h1 h2
    cases h1
    simpa using h2
  | cons s t ih =>
    intro x h1 h2
    exact ⟨h1.1, ih h1.2 h2⟩

/-- With non-negative hours, the loop's final `current_x` is the start
plus the total hours scaled: zero-hour categories are skipped but also
contribute no width. -/
theorem finalX_total (pph : ℚ) :
    ∀ (l : List (String × ℚ)) (x : ℚ), (∀ p ∈ l, 0 ≤ p.2) →
      finalX pph x l = x + (l.map Prod.snd).sum * pph := by
  intro l
  induction l with
  | nil => intro x _; simp [finalX]
  | cons p t ih =>
    intro x hn
    obtain ⟨c, h⟩ := p
    have ht : ∀ p ∈ t, 0 ≤ p.2 := fun q hq => hn q (List.mem_cons_of_mem _ hq)
    by_cases hp : 0 < h
    · rw [show finalX pph x ((c, h) :: t) = finalX pph (x + h * pph) t by
        simp [finalX, hp]]
      rw [ih (x + h * pph) ht]
      simp only [List.map_cons, List.sum_cons]
      ring
    · have h0 : h = 0 := le_antisymm (not_lt.mp hp) (hn (c, h) (List.mem_cons_self _ _))
      rw [show finalX pph x ((c, h) :: t) = finalX pph x t by simp [finalX, hp]]
      rw [ih x ht]
      simp only [List.map_cons, List.sum_cons, h0]
      ring

/-- A bar's numeric annotation is omitted exactly on height zero, for a
non-negative height. -/
theorem barLabel_none_iff (b : Bar) (hb : 0 ≤ b.height) :
    barLabel b = none ↔ b.height = 0 := by
  unfold barLabel
  by_cases hp : 0 < b.height
  · rw [if_pos hp]
    exact iff_of_false (by simp) (ne_of_gt hp)
  · rw [if_neg hp]
    exact iff_of_true rfl (le_antisymm (not_lt.mp hp) hb)

/-- The displayed result after any run of a session equals the result of
the last evaluation of that run, and is untouched by anything else. -/
theorem run_displayed (evs : List Event) :
    ∀ s : ShellState,
      displayed (run s evs)
        = match lastEval evs with
          | some o => some (ask_ai_for_score_and_advice o)
          | none => displayed s := by
  induction evs with
  | nil => intro s; rfl
  | cons e t ih =>
    intro s
    show displayed (run (step s e) t) = _
    rw [ih (step s e)]
    cases hl : lastEval t with
    | some o => simp [lastEval, hl]
    | none =>
      cases e with
      | evaluate o => simp [lastEval, hl, step, displayed]
      | setInput r => simp [lastEval, hl, step, displayed]

/-! ### The claims -/

/-- C2: every outcome of the remote call yields a (score, advice) pair:
a non-200 status yields score 0 with the fixed connection-error message,
an exception yields score 0 with an advice embedding the exception's
description, and no case escapes (the embedding is a total function). -/
theorem c2_failure_paths :
    (∀ (status : Nat) (body : List Char), status ≠ 200 →
        ask_ai_for_score_and_advice (.success status body) = (0, connErrMsg))
      ∧ (∀ desc, ask_ai_for_score_and_advice (.exn desc) = (0, errMsgHead ++ desc))
      ∧ (∀ out, ∃ sc ad, ask_ai_for_score_and_advice out = (sc, ad)) := by
  refine ⟨?_, fun desc => rfl, fun out => ⟨_, _, rfl⟩⟩
  intro status body hs
  simp [ask_ai_for_score_and_advice, hs]

/-- Witness for C2 at a concrete non-200 status and a concrete exception. -/
theorem c2_failure_paths_witness :
    (404 ≠ 200
      ∧ ask_ai_for_score_and_advice (.success 404 "down".data) = (0, connErrMsg))
      ∧ ask_ai_for_score_and_advice (.exn "timeout".data)
          = (0, errMsgHead ++ "timeout".data) :=
  ⟨⟨by decide, c2_failure_paths.1 404 "down".data (by decide)⟩,
    c2_failure_paths.2.1 "timeout".data⟩

/-- C4: the specific HTTP-200 body `"SCORE: 83\n인생 잘 사네요"` yields
score 83 and the trimmed advice `"인생 잘 사네요"`. -/
theorem c4_korean_example :
    ask_ai_for_score_and_advice (.success 200 "SCORE: 83\n인생 잘 사네요".data)
      = ((83 : Int), "인생 잘 사네요".data) := by decide

/-- C5: an HTTP-200 body in which the score pattern occurs at no position
yields score 0 and an advice string containing the entire raw body. -/
theorem c5_no_token (body : List Char)
    (h : ∀ i, i < body.length → scoreMatch (body.drop i) = none) :
    ask_ai_for_score_and_advice (.success 200 body) = (0, fmtMissingMsg ++ body)
      ∧ ∃ pre, (ask_ai_for_score_and_advice (.success 200 body)).2 = pre ++ body := by
  have hs := reSearch_none body h
  refine ⟨by simp [ask_ai_for_score_and_advice, hs], ⟨fmtMissingMsg, ?_⟩⟩
  simp [ask_ai_for_score_and_advice, hs]

/-- Witness for C5 at the spec's own example body. -/
theorem c5_no_token_witness :
    ask_ai_for_score_and_advice (.success 200 "I refuse to evaluate this.".data)
      = (0, fmtMissingMsg ++ "I refuse to evaluate this.".data) :=
  (c5_no_token "I refuse to evaluate this.".data (by decide)).1

/-- C9: on every return path the score is a non-negative integer; in
particular `"SCORE: -10"` matches the pattern nowhere and is handled as
a malformed response with score 0. -/
theorem c9_score_nonneg :
    (∀ out, 0 ≤ (ask_ai_for_score_and_advice out).1)
      ∧ reSearchScore "SCORE: -10".data = none
      ∧ ask_ai_for_score_and_advice (.success 200 "SCORE: -10".data)
          = (0, fmtMissingMsg ++ "SCORE: -10".data) := by
  refine ⟨?_, by decide, by decide⟩
  intro out
  cases out with
  | exn e => simp [ask_ai_for_score_and_advice]
  | success status body =>
    by_cases hs : status = 200
    · subst hs
      cases hr : reSearchScore body with
      | none => simp [ask_ai_for_score_and_advice, hr]
      | some r =>
        obtain ⟨g0, ds⟩ := r
        have heq : ask_ai_for_score_and_advice (.success 200 body)
            = ((digitsVal ds : Int), stripPy (removeAll g0 body)) := by
          simp [ask_ai_for_score_and_advice, hr]
        rw [heq]
        show (0 : Int) ≤ (digitsVal ds : Int)
        exact_mod_cast Nat.zero_le _
    · simp [ask_ai_for_score_and_advice, hs]

/-- C7: the stored result starts absent, each completed evaluation
(including failure outcomes) overwrites it unconditionally, a slider
change leaves the displayed result unchanged, and in every reachable
session state the displayed result is exactly the result of the most
recent completed evaluation. -/
theorem c7_session_state :
    (∀ r0, displayed (initShell r0) = none)
      ∧ (∀ s out, displayed (step s (.evaluate out))
            = some (ask_ai_for_score_and_advice out))
      ∧ (∀ s r, displayed (step s (.setInput r)) = displayed s)
      ∧ (∀ r0 evs, displayed (run (initShell r0) evs)
            = (lastEval evs).map ask_ai_for_score_and_advice) := by
  refine ⟨fun r0 => rfl, fun s out => by simp [step, displayed],
    fun s r => rfl, ?_⟩
  intro r0 evs
  rw [run_displayed evs (initShell r0)]
  cases lastEval evs <;> simp [initShell, displayed]

/-- Witness for C7: a concrete session with a failed evaluation followed
by a slider change still displays the failed evaluation's result. -/
theorem c7_session_state_witness :
    displayed (run (initShell ⟨7, 6, 3, 1, 2⟩)
        [Event.evaluate (.exn "boom".data), Event.setInput ⟨1, 1, 1, 1, 1⟩])
      = some (0, errMsgHead ++ "boom".data) := by
  have h := c7_session_state.2.2.2 ⟨7, 6, 3, 1, 2⟩
    [Event.evaluate (.exn "boom".data), Event.setInput ⟨1, 1, 1, 1, 1⟩]
  exact h.trans (by decide)

/-- C8: for every non-negative input the chart has exactly one bar per
category, in the fixed order, whose height is the supplied hours, and the
numeric label above a bar is omitted exactly when its height is zero. -/
theorem c8_bars (r : RoutineInput)
    (h1 : 0 ≤ r.sleep) (h2 : 0 ≤ r.study) (h3 : 0 ≤ r.screen)
    (h4 : 0 ≤ r.exercise) (h5 : 0 ≤ r.social) :
    (create_bar_chart r).map Bar.cat = categories
      ∧ (create_bar_chart r).map Bar.height = (items r).map Prod.snd
      ∧ ∀ b ∈ create_bar_chart r, (barLabel b = none ↔ b.height = 0) := by
  refine ⟨by simp [create_bar_chart, items, categories],
    by simp [create_bar_chart, items], ?_⟩
  intro b hb
  have hbh : 0 ≤ b.height := by
    simp only [create_bar_chart, items, List.map_cons, List.map_nil,
      List.mem_cons, List.not_mem_nil, or_false] at hb
    rcases hb with rfl | rfl | rfl | rfl | rfl <;> assumption
  exact barLabel_none_iff b hbh

/-- Witness for C8 at a concrete non-negative input. -/
theorem c8_bars_witness :
    (0 : ℚ) ≤ 7 ∧
      ((create_bar_chart ⟨7, 6, 3, 0, 2⟩).map Bar.cat = categories
        ∧ (create_bar_chart ⟨7, 6, 3, 0, 2⟩).map Bar.height
            = (items ⟨7, 6, 3, 0, 2⟩).map Prod.snd
        ∧ ∀ b ∈ create_bar_chart ⟨7, 6, 3, 0, 2⟩,
            (barLabel b = none ↔ b.height = 0)) :=
  ⟨by norm_num,
    c8_bars ⟨7, 6, 3, 0, 2⟩ (by norm_num) (by norm_num) (by norm_num)
      (by norm_num) (by norm_num)⟩

/-- C3: for every non-negative input, the strip uses scale denominator
`max(24, total hours)`, draws each positive-hours category, in the fixed
order, as a contiguous rectangle of width `hours * (width / denominator)`
(no rectangle for a zero-hours category), appends the fallback-colored
filler exactly when the total is under 24, and the rectangles plus filler
tile the strip from 0 to its full width. -/
theorem c3_timeline (r : RoutineInput)
    (h1 : 0 ≤ r.sleep) (h2 : 0 ≤ r.study) (h3 : 0 ≤ r.screen)
    (h4 : 0 ≤ r.exercise) (h5 : 0 ≤ r.social) :
    ((drawSegs (timelineWidth / baseHours r) 0 (items r)).map
        (fun s => (s.color, s.x1 - s.x0))
      = ((items r).filter (fun p => decide (0 < p.2))).map
          (fun p => (colorGet p.1, p.2 * (timelineWidth / baseHours r))))
    ∧ SegChain 0 (create_timeline_art r) timelineWidth
    ∧ create_timeline_art r
        = drawSegs (timelineWidth / baseHours r) 0 (items r)
          ++ (if totalInput r < 24 then
                [{ x0 := totalInput r * (timelineWidth / baseHours r),
                   x1 := timelineWidth, color := colorGet "Others" }]
              else []) := by
  have hn : ∀ p ∈ items r, 0 ≤ p.2 := by
    intro p hp
    simp only [items, List.mem_cons, List.not_mem_nil, or_false] at hp
    rcases hp with rfl | rfl | rfl | rfl | rfl <;> assumption
  have hfx : finalX (timelineWidth / baseHours r) 0 (items r)
      = totalInput r * (timelineWidth / baseHours r) := by
    rw [finalX_total _ (items r) 0 hn, totalInput, zero_add]
  have hBpos : 0 < baseHours r :=
    lt_of_lt_of_le (by norm_num) (le_max_left 24 (totalInput r))
  have hWpos : (0 : ℚ) < timelineWidth := by norm_num [timelineWidth]
  have hpph : 0 < timelineWidth / baseHours r := div_pos hWpos hBpos
  have hBW : baseHours r * (timelineWidth / baseHours r) = timelineWidth :=
    mul_div_cancel₀ timelineWidth (ne_of_gt hBpos)
  have hTB : totalInput r ≤ baseHours r := le_max_right 24 (totalInput r)
  have hiff : finalX (timelineWidth / baseHours r) 0 (items r) < timelineWidth
      ↔ totalInput r < 24 := by
    have ha : totalInput r * (timelineWidth / baseHours r)
        < baseHours r * (timelineWidth / baseHours r) ↔ totalInput r < baseHours r :=
      mul_lt_mul_right hpph
    rw [hBW] at ha
    have hb : totalInput r < baseHours r ↔ totalInput r < 24 := by
      unfold baseHours
      rw [lt_max_iff]
      simp
    rw [hfx]
    exact ha.trans hb
  refine ⟨drawSegs_widths _ (items r) 0, ?_, ?_⟩
  · by_cases hlt : totalInput r < 24
    · have hfl := hiff.mpr hlt
      simp only [create_timeline_art, if_pos hfl]
      exact SegChain_append (drawSegs_chain _ (items r) 0) ⟨rfl, rfl⟩
    · have hfl : ¬ finalX (timelineWidth / baseHours r) 0 (items r) < timelineWidth :=
        fun hc => hlt (hiff.mp hc)
      have hfxW : finalX (timelineWidth / baseHours r) 0 (items r) = timelineWidth := by
        refine le_antisymm ?_ (not_lt.mp hfl)
        rw [hfx]
        calc totalInput r * (timelineWidth / baseHours r)
            ≤ baseHours r * (timelineWidth / baseHours r) :=
              mul_le_mul_of_nonneg_right hTB (le_of_lt hpph)
          _ = timelineWidth := hBW
      simp only [create_timeline_art, if_neg hfl]
      have hchain := drawSegs_chain (timelineWidth / baseHours r) (items r) 0
      rwa [hfxW] at hchain
  · by_cases hlt : totalInput r < 24
    · have hfl := hiff.mpr hlt
      have hfl' : totalInput r * (timelineWidth / baseHours r) < timelineWidth := by
        rwa [hfx] at hfl
      simp only [create_timeline_art, if_pos hlt, hfx, if_pos hfl']
    · have hfl : ¬ finalX (timelineWidth / baseHours r) 0 (items r) < timelineWidth :=
        fun hc => hlt (hiff.mp hc)
      simp only [create_timeline_art, if_neg hfl, if_neg hlt, List.append_nil]

/-- Witness for C3 at a concrete non-negative input (total 19 < 24, so
the filler case is exercised). -/
theorem c3_timeline_witness :
    ((drawSegs (timelineWidth / baseHours sampleInput) 0 (items sampleInput)).map
        (fun s => (s.color, s.x1 - s.x0))
      = ((items sampleInput).filter (fun p => decide (0 < p.2))).map
          (fun p => (colorGet p.1, p.2 * (timelineWidth / baseHours sampleInput))))
    ∧ SegChain 0 (create_timeline_art sampleInput) timelineWidth
    ∧ create_timeline_art sampleInput
        = drawSegs (timelineWidth / baseHours sampleInput) 0 (items sampleInput)
          ++ (if totalInput sampleInput < 24 then
                [{ x0 := totalInput sampleInput * (timelineWidth / baseHours sampleInput),
                   x1 := timelineWidth, color := colorGet "Others" }]
              else []) :=
  c3_timeline sampleInput (by norm_num [sampleInput]) (by norm_num [sampleInput])
    (by norm_num [sampleInput]) (by norm_num [sampleInput]) (by norm_num [sampleInput])
